import Mathlib

/-!
# Verification of the scrap/fail/stoppage insight pipeline

Shallow embedding, in Lean 4, of the statistics, AI-response handling,
fallback-recommendation and report-assembly code of the
`Scraps_AI_Report_Generator` repository, together with theorems settling
the spec claims about it.

Conventions used throughout:
* Python dicts are modelled as insertion-ordered association lists
  (`List (String × _)`), matching CPython's key-ordering guarantee.
* Python's `sorted(..., reverse=True)` is a stable sort; it is modelled by
  `List.mergeSort` (also stable) with a `≥`-style comparison.
* Machine floats are modelled by exact rationals `ℚ`; `json.loads` and the
  wall clock (`datetime.now()`) are external collaborators and are passed
  in explicitly (a parse function, a `now` string).
* All definitions are total Lean functions; where the Python can raise,
  the doc comment of the definition says which branch models the raise.
-/

namespace ScrapReport

/-- One raw scrap record as produced by `get_scraps_data` in `src/main.py`
(only the fields read by the statistics code are modelled). -/
structure ScrapRec where
  areaName : String
  product : String
  declaredBy : String
  defect : String

/-- The production-context dict (`production_data`).  `none` in a field
models a missing key, so that Python's `production_data.get(k, d)`
becomes `Option.getD`. -/
structure ProductionData where
  nrBoards : Option Int
  nrOrders : Option Int

/-- Increment the counter for `k` in an insertion-ordered counts dict,
appending a fresh entry when the key is new.  Models
`d[k] = d.get(k, 0) + 1` on a Python dict. -/
def bump (k : String) : List (String × Nat) → List (String × Nat)
  | [] => [(k, 1)]
  | (k', n) :: rest => if k' = k then (k', n + 1) :: rest else (k', n) :: bump k rest

/-- Add `x` to a Python-set modelled as a duplicate-free list (membership
and cardinality are the only operations the source performs on these
sets, so the insertion order chosen here is unobservable). -/
def setAdd (x : String) (xs : List String) : List String :=
  if x ∈ xs then xs else xs ++ [x]

/-- Comparison used to model Python `sorted(..., key=count, reverse=True)`:
descending by the `Nat` component, stable on ties. -/
def geCount {α : Type} (a b : α × Nat) : Bool := decide (b.2 ≤ a.2)

/-- `_calculate_top_defects` result entry (`src/main.py`). -/
structure TopDefect where
  defectName : String
  count : Nat
  topArea : String
  areaCount : Nat
  productCount : Nat
  operatorCount : Nat

/-- Per-defect details accumulated by `_calculate_top_defects`:
an area counts dict plus product/operator sets. -/
structure DefectDetails where
  areas : List (String × Nat)
  products : List String
  operators : List String

/-- One step of the accumulation loop of `_calculate_top_defects`:
updates `defect_counts` and `defect_details` for one scrap record. -/
def topDefectsStep (st : List (String × Nat) × List (String × DefectDetails))
    (r : ScrapRec) : List (String × Nat) × List (String × DefectDetails) :=
  let counts := bump r.defect st.1
  let details :=
    match st.2.lookup r.defect with
    | none =>
        st.2 ++ [(r.defect,
          { areas := bump r.areaName []
            products := setAdd r.product []
            operators := setAdd r.declaredBy [] })]
    | some d =>
        st.2.map fun p =>
          if p.1 = r.defect then
            (p.1,
              { areas := bump r.areaName d.areas
                products := setAdd r.product d.products
                operators := setAdd r.declaredBy d.operators })
          else p
  (counts, details)

/-- The `defect_counts` dict built by `_calculate_top_defects`, in
first-seen (insertion) order. -/
def defectCounts (scraps : List ScrapRec) : List (String × Nat) :=
  (scraps.foldl topDefectsStep ([], [])).1

/-- The `defect_details` dict built by `_calculate_top_defects`. -/
def defectDetails (scraps : List ScrapRec) : List (String × DefectDetails) :=
  (scraps.foldl topDefectsStep ([], [])).2

/-- Python `max(items, key=lambda x: x[1])` over a non-empty dict:
the first entry attaining the maximal count. -/
def maxByCount (hd : String × Nat) (tl : List (String × Nat)) : String × Nat :=
  tl.foldl (fun best p => if best.2 < p.2 then p else best) hd

/-- Build one `top_defects` entry from a `(defect, count)` pair, looking up
the accumulated details (`top_area = max(details.areas, key=count)`,
with the `('N/A', 0)` default for an empty areas dict). -/
def mkTopDefect (details : List (String × DefectDetails)) (p : String × Nat) : TopDefect :=
  let d := (details.lookup p.1).getD ⟨[], [], []⟩
  let topArea :=
    match d.areas with
    | [] => ("N/A", 0)
    | a :: rest => maxByCount a rest
  { defectName := p.1
    count := p.2
    topArea := topArea.1
    areaCount := topArea.2
    productCount := d.products.length
    operatorCount := d.operators.length }

/-- `_calculate_top_defects(scraps_data)` from `src/main.py`: count
occurrences per defect in first-seen order, sort descending by count
(Python's `sorted` is stable, hence `mergeSort`), and decorate each entry
with its per-defect details. -/
def calculate_top_defects (scraps : List ScrapRec) : List TopDefect :=
  ((defectCounts scraps).mergeSort geCount).map (mkTopDefect (defectDetails scraps))

/-- Per-area statistics entry of `_calculate_statistics` (`src/main.py`):
a count plus the set of distinct defect names seen in that area. -/
structure AreaStat where
  count : Nat
  defects : List String

/-- `top_areas` entry of `_calculate_statistics`. -/
structure TopArea where
  area : String
  count : Nat
  unique_defects : Nat

/-- Result dict of `_calculate_statistics` in `src/main.py`. -/
structure ScrapStatistics where
  scrap_rate : ℚ
  total_scraps : Nat
  total_boards : Int
  area_stats : List (String × AreaStat)
  product_stats : List (String × Nat)
  top_areas : List TopArea
  top_products : List (String × Nat)

/-- The `area_stats` accumulation loop of `_calculate_statistics`. -/
def areaStatsStep (m : List (String × AreaStat)) (r : ScrapRec) : List (String × AreaStat) :=
  match m.lookup r.areaName with
  | none => m ++ [(r.areaName, { count := 1, defects := setAdd r.defect [] })]
  | some a =>
      m.map fun p =>
        if p.1 = r.areaName then
          (p.1, { count := a.count + 1, defects := setAdd r.defect a.defects })
        else p

/-- `_calculate_statistics(production_data, scraps_data)` from
`src/main.py`.  The scrap rate is `count / NrBoards * 100` guarded by
`if nr_boards > 0 else 0`; the function is pure and total (the Python
body can raise only on a malformed record dict, which the record type
rules out). -/
def calculate_statistics (production : ProductionData) (scraps : List ScrapRec) :
    ScrapStatistics :=
  let nrBoards := production.nrBoards.getD 0
  let scrapCount := scraps.length
  let scrapRate : ℚ := if 0 < nrBoards then (scrapCount : ℚ) / (nrBoards : ℚ) * 100 else 0
  let areaStats := scraps.foldl areaStatsStep []
  let productStats := scraps.foldl (fun m r => bump r.product m) []
  let topAreas :=
    ((areaStats.map fun p => (p.1, p.2.count, p.2.defects.length)).mergeSort
      (fun a b => decide (b.2.1 ≤ a.2.1))).take 5
  let topProducts := (productStats.mergeSort geCount).take 5
  { scrap_rate := scrapRate
    total_scraps := scrapCount
    total_boards := nrBoards
    area_stats := areaStats
    product_stats := productStats
    top_areas := topAreas.map fun p => ⟨p.1, p.2.1, p.2.2⟩
    top_products := topProducts }

/-- One raw FAIL record as produced by `get_fail_data` in
`src/fail_analyzer.py` (only the fields read by
`_calculate_fail_statistics` are modelled; `get_fail_data` always
populates them, with `'Unknown'` defaults). -/
structure FailRec where
  defectType : String
  productCode : String
  area : String

/-- Result dict of `_calculate_fail_statistics` in `src/fail_analyzer.py`. -/
structure FailStatistics where
  total_fails : Nat
  total_boards : Int
  fail_rate : ℚ
  defect_stats : List (String × Nat)
  top_defects : List (String × Nat)
  top_products : List (String × Nat)
  top_areas : List (String × Nat)
  unique_defects : Nat
  unique_products : Nat
  unique_areas : Nat

/-- `_calculate_fail_statistics(fail_data, production_data)` from
`src/fail_analyzer.py`.  Note the `production_data.get('NrBoards', 1)`
default (1, unlike the scrap path's 0); the rate is guarded by
`if total_boards > 0 else 0`.  The body cannot raise (every dict access
is guarded), so the `except` branch falling back to
`_calculate_basic_statistics` is dead code and is not modelled. -/
def calculate_fail_statistics (failData : List FailRec) (production : ProductionData) :
    FailStatistics :=
  let totalFails := failData.length
  let totalBoards := production.nrBoards.getD 1
  let failRate : ℚ := if 0 < totalBoards then (totalFails : ℚ) / (totalBoards : ℚ) * 100 else 0
  let defectStats := failData.foldl (fun m r => bump r.defectType m) []
  let topDefects := defectStats.mergeSort geCount
  let productStats := failData.foldl (fun m r => bump r.productCode m) []
  let topProducts := productStats.mergeSort geCount
  let areaStats := failData.foldl (fun m r => bump r.area m) []
  let topAreas := areaStats.mergeSort geCount
  { total_fails := totalFails
    total_boards := totalBoards
    fail_rate := failRate
    defect_stats := defectStats
    top_defects := topDefects.take 10
    top_products := topProducts.take 10
    top_areas := topAreas.take 5
    unique_defects := defectStats.length
    unique_products := productStats.length
    unique_areas := areaStats.length }

/-- `_calculate_empty_statistics()` from `src/fail_analyzer.py`: the
zeroed statistics dict used when there is no fail data (its dict lacks
the `top_areas`/`unique_areas` keys, so those are `[]`/`0` here only by
the record type; the claim-relevant fields are the literal zeros below). -/
def calculate_empty_statistics : FailStatistics :=
  { total_fails := 0
    total_boards := 0
    fail_rate := 0
    defect_stats := []
    top_defects := []
    top_products := []
    top_areas := []
    unique_defects := 0
    unique_products := 0
    unique_areas := 0 }

/-- One raw breakdown (line-stoppage) event handed to
`src/breakdown_analyzer.py` (fields read by the statistics code).
`hours` is `none` when the `Hours` column fails numeric coercion, so
`pd.to_numeric(..., errors='coerce').fillna(0)` becomes `Option.getD 0`. -/
structure BreakdownRec where
  descriptionRO : String
  workingLineName : String
  hours : Option ℚ

/-- Round a rational to two decimal places, modelling Python's
`round(x, 2)`.  Python rounds half-to-even on floats; exact midpoints
are rounded half-up here — a difference no claim touches. -/
def round2 (q : ℚ) : ℚ := (⌊q * 100 + 1 / 2⌋ : ℚ) / 100

/-- Sum a dict-valued accumulation: add `v` to the entry for `k`,
appending a fresh entry when the key is new (models the per-group sum
of `df.groupby(k)[v].sum()` built in first-seen order). -/
def addAt (k : String) (v : ℚ) : List (String × ℚ) → List (String × ℚ)
  | [] => [(k, v)]
  | (k', s) :: rest => if k' = k then (k', s + v) :: rest else (k', s) :: addAt k v rest

/-- Descending-by-value comparison for rational-valued dicts. -/
def geVal {α : Type} (a b : α × ℚ) : Bool := decide (b.2 ≤ a.2)

/-- Result dict of `_calculate_breakdown_statistics` in
`src/breakdown_analyzer.py`.  The empty-input branch of the source omits
the `total_orders` and `unique_problems_count` keys, hence the `Option`
fields (`none` models the missing key). -/
structure BreakdownStatistics where
  total_stoppages : Nat
  total_downtime_hours : ℚ
  total_boards_produced : Int
  total_orders : Option Int
  avg_downtime_minutes : ℚ
  unique_problems_count : Option Nat
  problem_frequency : List (String × Nat)
  top_problems_by_freq : List (String × Nat)
  top_problems_by_time : List (String × ℚ)
  top_lines_by_time : List (String × ℚ)

/-- `_calculate_breakdown_statistics(breakdown_data, production_data)`
from `src/breakdown_analyzer.py`.  On empty input it returns the literal
zeroed dict of the source's early-return branch.  On non-empty input the
pandas pipeline is modelled directly: `value_counts` and the
`groupby(...).sum().sort_values(ascending=False)` tables are frequency /
sum tables sorted descending (pandas leaves tie order unspecified; the
stable sort over first-seen order used here is one refinement of it, and
no claim depends on tie order of these tables). -/
def calculate_breakdown_statistics (breakdownData : List BreakdownRec)
    (production : ProductionData) : BreakdownStatistics :=
  match breakdownData with
  | [] =>
      { total_stoppages := 0
        total_downtime_hours := 0
        total_boards_produced := production.nrBoards.getD 0
        total_orders := none
        avg_downtime_minutes := 0
        unique_problems_count := none
        problem_frequency := []
        top_problems_by_freq := []
        top_problems_by_time := []
        top_lines_by_time := [] }
  | _ =>
      let totalStoppages := breakdownData.length
      let totalDowntime : ℚ := (breakdownData.map fun r => r.hours.getD 0).sum
      let problemFreq :=
        (breakdownData.foldl (fun m r => bump r.descriptionRO m) []).mergeSort geCount
      let problemTime :=
        (breakdownData.foldl (fun m r => addAt r.descriptionRO (r.hours.getD 0) m) []).mergeSort
          geVal
      let lineTime :=
        (breakdownData.foldl (fun m r => addAt r.workingLineName (r.hours.getD 0) m) []).mergeSort
          geVal
      { total_stoppages := totalStoppages
        total_downtime_hours := round2 totalDowntime
        total_boards_produced := production.nrBoards.getD 0
        total_orders := some (production.nrOrders.getD 0)
        avg_downtime_minutes :=
          round2 (if 0 < totalStoppages then totalDowntime * 60 / totalStoppages else 0)
        unique_problems_count := some problemFreq.length
        problem_frequency := problemFreq
        top_problems_by_freq := problemFreq.take 5
        top_problems_by_time := problemTime.take 5
        top_lines_by_time := lineTime.take 5 }

/-- JSON values, as returned by Python's `json.loads` (numbers are
modelled as integers; no claim involves fractional JSON numbers). -/
inductive Json where
  | null : Json
  | bool : Bool → Json
  | num : Int → Json
  | str : String → Json
  | arr : List Json → Json
  | obj : List (String × Json) → Json

/-- Python truthiness of a JSON value (`if ai_response:`):
`None`, `False`, `0`, `''`, `[]` and `\x7b\x7d` are falsy. -/
def Json.truthy : Json → Bool
  | .null => false
  | .bool b => b
  | .num n => decide (n ≠ 0)
  | .str s => decide (s ≠ "")
  | .arr l => !l.isEmpty
  | .obj l => !l.isEmpty

/-- Outcome of the `requests.post` call in `_call_ai`
(`src/ai_analyzer.py`): either a transport-level failure — connection
error, timeout, or a non-2xx status turned into an exception by
`raise_for_status()`, all caught as `RequestException` — or an HTTP 200
body, carried as raw text since `response.json()` may itself fail. -/
inductive NetOutcome where
  | exn : NetOutcome
  | ok : String → NetOutcome

/-- `response.json().get('response', '{}')` in `_call_ai`: the body must
be a JSON object whose `response` value is a string (default `'{}'` when
the key is absent).  A non-object body or a non-string value makes the
Python raise (`AttributeError` / `TypeError` in the subsequent
`json.loads`), caught by the broad `except` — modelled as `none`. -/
def responseField : Json → Option String
  | .obj fields =>
      match fields.lookup "response" with
      | some (.str s) => some s
      | some _ => none
      | none => some "\x7b\x7d"
  | _ => none

/-- `_call_ai(prompt)` from `src/ai_analyzer.py`.  `parse` models
`json.loads` / `response.json()` (the standard library is an external
collaborator); the prompt text does not influence the result and is not
modelled.  Every failure — transport error, unparsable body, missing or
malformed `response` field, unparsable `response` string — is caught by
the function's `except` clauses and collapses to `None`: the return
value carries no reason code of any kind. -/
def call_ai (parse : String → Option Json) (net : NetOutcome) : Option Json :=
  match net with
  | .exn => none
  | .ok bodyText =>
      match parse bodyText with
      | none => none
      | some body =>
          match responseField body with
          | none => none
          | some s => parse s

/-- The canned insight `analyze_defects` substitutes when `_call_ai`
returns `None` or a falsy value (`src/ai_analyzer.py`, line 59). -/
def scrapFallbackInsight : Json :=
  .obj
    [("executive_summary",
        .str "AI analysis for scraps failed. Please review statistical data."),
     ("root_causes", .arr []),
     ("recommendations", .arr [])]

/-- The canned insight `analyze_breakdowns` substitutes when `_call_ai`
returns `None` or a falsy value (`src/ai_analyzer.py`, line 75). -/
def breakdownFallbackInsight : Json :=
  .obj
    [("executive_summary",
        .str "AI analysis for breakdowns failed. Please review statistical data."),
     ("root_causes", .arr []),
     ("recommendations", .arr []),
     ("kaizen_project_proposal", .null)]

/-- `analyze_defects(top_defects, production_data)` from
`src/ai_analyzer.py`: return the AI response when truthy, else the canned
scrap fallback insight.  (The prompt built from its arguments only feeds
the external model and is not modelled.) -/
def analyze_defects (parse : String → Option Json) (net : NetOutcome) : Json :=
  match call_ai parse net with
  | some r => if r.truthy then r else scrapFallbackInsight
  | none => scrapFallbackInsight

/-- `analyze_breakdowns(statistics, production_data, period_type)` from
`src/ai_analyzer.py`: return the AI response when truthy, else the
canned breakdown fallback insight. -/
def ai_analyze_breakdowns (parse : String → Option Json) (net : NetOutcome) : Json :=
  match call_ai parse net with
  | some r => if r.truthy then r else breakdownFallbackInsight
  | none => breakdownFallbackInsight

/-- The canned insight `analyze_fails` substitutes when `_call_ai`
returns `None` or a falsy value (`src/ai_analyzer.py`, line 67). -/
def failsFallbackInsight : Json :=
  .obj
    [("executive_summary",
        .str "AI analysis for fails failed. Please review statistical data."),
     ("root_causes", .arr []),
     ("recommendations", .arr []),
     ("kaizen_project_proposal", .null)]

/-- `analyze_fails(fail_data, statistics, period_type)` from
`src/ai_analyzer.py`. -/
def ai_analyze_fails (parse : String → Option Json) (net : NetOutcome) : Json :=
  match call_ai parse net with
  | some r => if r.truthy then r else failsFallbackInsight
  | none => failsFallbackInsight

/-- Result dict of `BreakdownAnalyzer.analyze_breakdowns`
(`src/breakdown_analyzer.py`). -/
structure BreakdownResult where
  statistics : BreakdownStatistics
  ai_insights : Json
  period_type : String
  raw_data : List BreakdownRec
  success : Bool

/-- `analyze_breakdowns(breakdown_data, production_data, period_type)`
from `src/breakdown_analyzer.py`.  On zero records it still returns a
full, `success=True` result holding the zeroed statistics and a canned
no-data insight — it does not skip.  The `ai_insights or ...` Python
idiom replaces a falsy insight with a stub, modelled by the `truthy`
test.  The surrounding `except` branch is unreachable for the pure body
modelled here and is not embedded. -/
def analyze_breakdowns (parse : String → Option Json) (net : NetOutcome)
    (breakdownData : List BreakdownRec) (production : ProductionData)
    (periodType : String) : BreakdownResult :=
  let statistics := calculate_breakdown_statistics breakdownData production
  if breakdownData.isEmpty then
    { statistics := statistics
      ai_insights :=
        .obj [("executive_summary", .str "No breakdown data available for this period.")]
      period_type := periodType
      raw_data := []
      success := true }
  else
    let aiInsights := ai_analyze_breakdowns parse net
    { statistics := statistics
      ai_insights :=
        if aiInsights.truthy then aiInsights
        else .obj [("executive_summary", .str "AI analysis failed.")]
      period_type := periodType
      raw_data := breakdownData
      success := true }

/-- Result dict of `FailAnalyzer.analyze_fails` (`src/fail_analyzer.py`). -/
structure FailResult where
  statistics : FailStatistics
  ai_insights : Json
  period_type : String
  success : Bool

/-- `FailAnalyzer.analyze_fails(fail_data, production_data, period_type)`
from `src/fail_analyzer.py`: on zero records it returns the empty
statistics with a `no_data` insight and `success=False`; otherwise it
computes statistics and asks the AI analyzer. -/
def fail_analyze_fails (parse : String → Option Json) (net : NetOutcome)
    (failData : List FailRec) (production : ProductionData)
    (periodType : String) : FailResult :=
  if failData.isEmpty then
    { statistics := calculate_empty_statistics
      ai_insights := .obj [("analysis_type", .str "no_data")]
      period_type := periodType
      success := false }
  else
    { statistics := calculate_fail_statistics failData production
      ai_insights := ai_analyze_fails parse net
      period_type := periodType
      success := true }

/-- Outcome of `generate_complete_report` (`src/ai_report_generator.py`):
either the early no-data return (`success=False` with the Italian
message), or the value produced by the remainder of the function. -/
inductive ReportOutcome (β : Type) where
  | noData : String → ReportOutcome β
  | produced : β → ReportOutcome β

/-- The data-availability gate of `generate_complete_report`
(`src/ai_report_generator.py`, lines 217-224): when the scrap DataFrame
is empty the function returns the no-data dict at once and the analysis
and rendering steps below the check never run; `rest` models the value
those steps (I/O-performing, out of a shallow embedding's reach) would
produce on non-empty data. -/
def generate_complete_report {α β : Type} (scrapData : List α) (rest : β) :
    ReportOutcome β :=
  if scrapData.isEmpty then
    .noData "Nessun dato disponibile per il periodo specificato"
  else
    .produced rest

/-! ## `src/ai_integration.py`: the Ollama client and its rule-based fallback -/

/-- The character `{` (written via its code point to keep brace characters
out of the source text). -/
def lbrace : Char := Char.ofNat 123

/-- The character `}`. -/
def rbrace : Char := Char.ofNat 125

/-- The backquote character of Markdown code fences. -/
def backquote : Char := Char.ofNat 96

/-- A Markdown code-fence marker, three backquotes. -/
def fenceChars : List Char := [backquote, backquote, backquote]

/-- Python `str.strip()` whitespace: space, tab, newline, vertical tab,
form feed, carriage return. -/
def isPySpace (c : Char) : Bool :=
  c == ' ' || c == Char.ofNat 9 || c == Char.ofNat 10 || c == Char.ofNat 11 ||
  c == Char.ofNat 12 || c == Char.ofNat 13

/-- Python `response.strip()`. -/
def pyStrip (s : List Char) : List Char :=
  ((s.dropWhile isPySpace).reverse.dropWhile isPySpace).reverse

/-- Python `response.split('\n', 1)[1]`: everything after the first
newline (the caller guards `'\n' in response`). -/
def dropFirstLine (s : List Char) : List Char :=
  (s.dropWhile fun c => !(c == '\n')).tail

/-- Python `response.rsplit('\n', 1)[0]`: everything before the last
newline (the caller guards `'\n' in response`). -/
def dropLastLine (s : List Char) : List Char :=
  ((s.reverse.dropWhile fun c => !(c == '\n')).tail).reverse

/-- The code-fence stripping step of `generate_enhanced_recommendations`
(`src/ai_integration.py`, lines 251-255): a leading fence drops the
first line (or just three characters when the text is a single line),
then a trailing fence drops the last line likewise. -/
def stripFences (s : List Char) : List Char :=
  let s1 :=
    if fenceChars.isPrefixOf s then
      (if s.contains '\n' then dropFirstLine s else s.drop 3)
    else s
  if fenceChars.isSuffixOf s1 then
    (if s1.contains '\n' then dropLastLine s1 else s1.take (s1.length - 3))
  else s1

/-- The JSON-span selection of `generate_enhanced_recommendations`
(`src/ai_integration.py`, lines 257-262): `find('{')`, `rfind('}')`, and
the slice between them when `json_end > json_start`; `none` models the
no-valid-JSON branch. -/
def jsonSpan (s : List Char) : Option (List Char) :=
  match s.findIdx? (fun c => c == lbrace), s.reverse.findIdx? (fun c => c == rbrace) with
  | some i, some k =>
      if i < s.length - 1 - k + 1 then some ((s.drop i).take (s.length - 1 - k + 1 - i))
      else none
  | _, _ => none

/-- Immutable configuration of `OllamaAIAnalyzer`
(`src/ai_integration.py`): endpoint, model name, and the availability
flag set once by the `_initialize_client` probe at construction. -/
structure OllamaState where
  base_url : String
  model_name : String
  available : Bool

/-- Outcome of the `requests.post` call in `_call_ollama`: a transport
exception (timeout, connection error, or any unexpected error — all
caught) or an HTTP response with status code and body text. -/
inductive OllamaNet where
  | exn : OllamaNet
  | resp : Nat → String → OllamaNet

/-- `_call_ollama(prompt)` from `src/ai_integration.py`.  When the
availability probe failed (`self.available` false) it returns `None`
before touching the network — the result does not depend on `net`.
Otherwise: non-200 status, transport exception, or an unparsable body
all yield `None`; a 200 body is parsed and `result.get('response', '')`
extracted.  A non-object body or a non-string `response` value makes the
Python raise and land in the same broad `except`/caller fallback, so
those cases are also `none`. -/
def call_ollama (st : OllamaState) (parse : String → Option Json) (net : OllamaNet) :
    Option String :=
  if !st.available then none
  else
    match net with
    | .exn => none
    | .resp status body =>
        if status = 200 then
          match parse body with
          | some (.obj fields) =>
              match fields.lookup "response" with
              | some (.str s) => some s
              | none => some ""
              | some _ => none
          | _ => none
        else none

/-- The statistical-analysis dict fed to
`generate_enhanced_recommendations` (the keys it reads, each accessed
with a `.get(..., default)`); distributions are insertion-ordered count
dicts. -/
structure AnalysisResults where
  total_defects : Nat
  defect_distribution : List (String × Nat)
  machine_distribution : List (String × Nat)
  overall_trend : Option String
  critical_issues : List String

/-- Python `max(d.items(), key=lambda x: x[1])[0] if d else "Unknown"`:
the first key attaining the maximal count. -/
def maxKeyByCount (d : List (String × Nat)) : String :=
  match d with
  | [] => "Unknown"
  | a :: rest => (maxByCount a rest).1

/-- Occurrence of `needle` as a contiguous run inside a character list. -/
def isSubChars (needle : List Char) : List Char → Bool
  | [] => needle.isEmpty
  | c :: rest => needle.isPrefixOf (c :: rest) || isSubChars needle rest

/-- Python substring containment `needle in s`. -/
def isSub (needle s : String) : Bool := isSubChars needle.toList s.toList

/-- Keyword test of the COLD_SOLDER/INSUFFICIENT fallback branch. -/
def kwCold (mc : String) : Bool := isSub "COLD_SOLDER" mc || isSub "INSUFFICIENT" mc

/-- Keyword test of the BRIDGING fallback branch. -/
def kwBridge (mc : String) : Bool := isSub "BRIDGING" mc || isSub "BRIDGE" mc

/-- Keyword test of the ICICLES/SOLDER_SPIKES fallback branch. -/
def kwIcicle (mc : String) : Bool := isSub "ICICLE" mc || isSub "SPIKE" mc

/-- Keyword test of the THERMAL_DAMAGE fallback branch. -/
def kwThermal (mc : String) : Bool := isSub "THERMAL" mc || isSub "DAMAGE" mc

/-- Keyword test of the CONTAMINATION fallback branch. -/
def kwContam (mc : String) : Bool := isSub "CONTAMINATION" mc || isSub "CONTAMIN" mc

/-- Disjunction of all five keyword branches: exactly the labels for
which the fallback engine emits a canned root-cause entry. -/
def kwAny (mc : String) : Bool :=
  kwCold mc || kwBridge mc || kwIcicle mc || kwThermal mc || kwContam mc

/-- One `priority_actions` entry of the fallback engine. -/
def mkAction (action reason priority impact target : String) : Json :=
  .obj
    [("action", .str action), ("reason", .str reason), ("priority", .str priority),
     ("estimated_impact", .str impact), ("target_defect", .str target)]

/-- `_generate_fallback_recommendations(analysis_results)` from
`src/ai_integration.py` (lines 303-439): the pure, rule-based fallback
engine.  Five independent keyword branches on the most common defect
each append canned priority-action / root-cause / process / equipment
entries; a training block is added when `total_defects > 50`; the
preventive-measure and technical-insight blocks are always appended.
`now` models `datetime.now().isoformat()` in the metadata.  The result
dict's keys are in the source's insertion order, `metadata` carrying the
`source: rule_based_fallback` provenance tag. -/
def fallback_recommendations (analysis : AnalysisResults) (now : String) :
    List (String × Json) :=
  let totalDefects := analysis.total_defects
  let mc := maxKeyByCount analysis.defect_distribution
  let mm := maxKeyByCount analysis.machine_distribution
  let mcCount := (analysis.defect_distribution.lookup mc).getD 0
  let mmCount := (analysis.machine_distribution.lookup mm).getD 0
  -- COLD_SOLDER / INSUFFICIENT_SOLDER
  let pa1 : List Json :=
    if kwCold mc then
      [mkAction ("Verificare temperatura bath su " ++ mm ++ " (target: 255-260°C per SAC305)")
        ("Rilevati " ++ toString mcCount ++ " casi di saldatura fredda") "high" "30-40%" mc]
    else []
  let rc1 : List Json :=
    if kwCold mc then [.str "Temperatura bath insufficiente o profilo termico non ottimale"]
    else []
  let ec1 : List Json :=
    if kwCold mc then [.str "Controllo giornaliero temperatura bath con termometro calibrato"]
    else []
  let pi1 : List Json :=
    if kwCold mc then [.str "Aumentare temperatura preheating a 120-130°C per ridurre Delta T"]
    else []
  -- BRIDGING
  let pa2 : List Json :=
    if kwBridge mc then
      [mkAction ("Ridurre velocità conveyor su " ++ mm ++ " (target: 0.8-1.2 m/min)")
        ("Rilevati " ++ toString mcCount ++ " casi di ponti di saldatura") "high" "25-35%" mc]
    else []
  let rc2 : List Json :=
    if kwBridge mc then [.str "Velocità conveyor troppo bassa o altezza onda eccessiva"]
    else []
  let ec2 : List Json :=
    if kwBridge mc then
      [.str "Verifica settimanale altezza onda (target: 2/3 dello spessore PCB)"]
    else []
  let pi2 : List Json :=
    if kwBridge mc then [.str "Ottimizzare densità flux (SG: 0.82-0.85 a 20°C)"] else []
  -- ICICLES / SOLDER SPIKES
  let pa3 : List Json :=
    if kwIcicle mc then
      [mkAction ("Verificare angolo onda su " ++ mm ++ " (target: 5-7° per SAC)")
        ("Rilevati " ++ toString mcCount ++ " casi di stalattiti") "medium" "20-30%" mc]
    else []
  let rc3 : List Json :=
    if kwIcicle mc then [.str "Angolo onda non ottimale o velocità estrazione PCB troppo rapida"]
    else []
  let ec3 : List Json :=
    if kwIcicle mc then [.str "Controllo mensile geometria onda e usura nozzle"] else []
  -- THERMAL DAMAGE
  let pa4 : List Json :=
    if kwThermal mc then
      [mkAction ("Ridurre Delta T su " ++ mm ++ " (target: 120-150°C)")
        ("Rilevati " ++ toString mcCount ++ " casi di danni termici") "high" "40-50%" mc]
    else []
  let rc4 : List Json :=
    if kwThermal mc then
      [.str "Shock termico eccessivo: preheating insufficiente o temperatura bath troppo alta"]
    else []
  let pi4 : List Json :=
    if kwThermal mc then [.str "Aumentare tempo soak preheating a 60-90 secondi"] else []
  -- CONTAMINATION
  let pa5 : List Json :=
    if kwContam mc then
      [mkAction ("Sostituire flux e verificare pulizia bath su " ++ mm)
        ("Rilevati " ++ toString mcCount ++ " casi di contaminazione") "high" "35-45%" mc]
    else []
  let rc5 : List Json :=
    if kwContam mc then [.str "Flux degradato o bath contaminato (ossidi, impurità)"] else []
  let ec5 : List Json :=
    if kwContam mc then
      [.str "Controllo settimanale purezza lega (XRF) e sostituzione flux ogni 8 ore"]
    else []
  -- always-present generic blocks
  let tn : List Json :=
    if 50 < totalDefects then
      [.str "Formazione operatori su parametri critici Wave Soldering SAC305",
       .str "Training tecnici su troubleshooting difetti comuni e ottimizzazione profilo termico",
       .str "Certificazione operatori secondo standard IPC-A-610 Classe 2/3"]
    else []
  let pm : List Json :=
    [.str
        "Implementare checklist giornaliera parametri macchina (temperatura, velocità, altezza onda)",
     .str "Monitoraggio continuo FPY (First Pass Yield) per identificare derive processo",
     .str
        "Manutenzione preventiva mensile: pulizia nozzle, verifica termocoppie, calibrazione sensori"]
  let ti : List Json :=
    [.str ("Analisi " ++ toString totalDefects ++ " difetti: concentrazione su " ++ mc ++
        " (" ++ toString mcCount ++ " casi)"),
     .str ("Macchina " ++ mm ++ " richiede attenzione prioritaria (" ++ toString mmCount ++
        " difetti)"),
     .str "Leghe SAC richiedono controllo rigoroso Delta T per evitare shock termico componenti"]
  [("priority_actions", .arr (pa1 ++ pa2 ++ pa3 ++ pa4 ++ pa5)),
   ("root_causes", .arr (rc1 ++ rc2 ++ rc3 ++ rc4 ++ rc5)),
   ("process_improvements", .arr (pi1 ++ pi2 ++ pi4)),
   ("preventive_measures", .arr pm),
   ("training_needs", .arr tn),
   ("equipment_checks", .arr (ec1 ++ ec2 ++ ec3 ++ ec5)),
   ("technical_insights", .arr ti),
   ("metadata",
     .obj
       [("generated_at", .str now),
        ("total_defects_analyzed", .num (totalDefects : Int)),
        ("primary_defect", .str mc),
        ("primary_machine", .str mm),
        ("source", .str "rule_based_fallback"),
        ("ai_model", .str "N/A (fallback mode)")])]

/-- The `metadata` dict added on the successful AI path of
`generate_enhanced_recommendations` — note it carries no `source` key. -/
def aiMetadata (st : OllamaState) (analysis : AnalysisResults) (now : String) : Json :=
  .obj
    [("generated_at", .str now),
     ("total_defects_analyzed", .num (analysis.total_defects : Int)),
     ("primary_defect", .str (maxKeyByCount analysis.defect_distribution)),
     ("primary_machine", .str (maxKeyByCount analysis.machine_distribution)),
     ("trend", .str (analysis.overall_trend.getD "stable")),
     ("ai_model", .str st.model_name)]

/-- The required-key list of the response validation
(`src/ai_integration.py`, lines 266-269) — `technical_insights` is
deliberately absent from it in the source. -/
def requiredKeys : List String :=
  ["priority_actions", "root_causes", "process_improvements",
   "preventive_measures", "training_needs", "equipment_checks"]

/-- Python dict assignment `d[k] = v`: overwrite in place when the key
exists, append otherwise. -/
def dictSet (k : String) (v : Json) : List (String × Json) → List (String × Json)
  | [] => [(k, v)]
  | (k', v') :: rest => if k' = k then (k, v) :: rest else (k', v') :: dictSet k v rest

/-- The validation loop `for key in required_keys: if key not in
recommendations: recommendations[key] = []` — missing required keys
default to empty lists; keys already present (and any unknown extra
keys) are left untouched. -/
def ensureKeys (fields : List (String × Json)) : List (String × Json) :=
  requiredKeys.foldl (fun d k => if (d.lookup k).isSome then d else d ++ [(k, Json.arr [])])
    fields

/-- `generate_enhanced_recommendations(defect_data, analysis_results)`
from `src/ai_integration.py` (the `defect_data` argument is never read
by the source body and is omitted).  No Ollama response, no JSON span in
the response, an unparsable span, or a parsed non-object (whose key
assignments raise and are caught by the function's broad `except`) all
resolve to the rule-based fallback; a parsed object gets its missing
required keys defaulted to `[]` and the AI metadata attached. -/
def generate_enhanced_recommendations (st : OllamaState) (parse : String → Option Json)
    (net : OllamaNet) (analysis : AnalysisResults) (now : String) :
    List (String × Json) :=
  match call_ollama st parse net with
  | none => fallback_recommendations analysis now
  | some response =>
      let r1 := stripFences (pyStrip response.toList)
      match jsonSpan r1 with
      | none => fallback_recommendations analysis now
      | some span =>
          match parse (String.mk span) with
          | some (.obj fields) => dictSet "metadata" (aiMetadata st analysis now) (ensureKeys fields)
          | _ => fallback_recommendations analysis now

/-! ## `src/main.py`: the comprehensive report assembler -/

/-- Insert thousands separators into a reversed digit list (helper for
Python's `format(n, ',')`). -/
def insertCommasRev : List Char → List Char
  | a :: b :: c :: d :: rest => a :: b :: c :: ',' :: insertCommasRev (d :: rest)
  | l => l

/-- Python `f"{n:,}"` for a natural number. -/
def fmtCommasNat (n : Nat) : String :=
  String.mk ((insertCommasRev (toString n).toList.reverse).reverse)

/-- Python `f"{n:,}"` for an integer. -/
def fmtCommasInt (n : Int) : String :=
  if n < 0 then "-" ++ fmtCommasNat n.natAbs else fmtCommasNat n.natAbs

/-- Python `f"{x:.Nf}"` fixed-point formatting of a rational with `decs`
decimal places.  (Python formats the nearest binary float with
round-half-even; here the exact rational is rounded half-up — a
difference only at exact midpoints, which no claim depends on.) -/
def fmtRatFixed (decs : Nat) (q : ℚ) : String :=
  let sign := if q < 0 then "-" else ""
  let p : Nat := 10 ^ decs
  let c : Nat := (⌊|q| * (p : ℚ) + 1 / 2⌋).toNat
  let whole := c / p
  let frac := c % p
  let fracDigits := toString frac
  let pad := String.mk (List.replicate (decs - fracDigits.length) '0')
  sign ++ toString whole ++ "." ++ pad ++ fracDigits

/-- Python `str()` of a parsed-JSON value, as interpolated by f-strings.
Container reprs are abbreviated (no claim reads the rendering of a
malformed AI payload; only determinism matters here). -/
def pyStr : Json → String
  | .null => "None"
  | .bool true => "True"
  | .bool false => "False"
  | .num n => toString n
  | .str s => s
  | .arr _ => "[...]"
  | .obj _ => "\x7b...\x7d"

/-- Python `x.get(k, d)` on a parsed-JSON value.  On a non-dict the
Python raises `AttributeError`; two calls on identical inputs raise
identically, so returning the default there is adequate for every claim
(all of which quantify over the function's value). -/
def jGet (j : Json) (k : String) (d : Json) : Json :=
  match j with
  | .obj fields => (fields.lookup k).getD d
  | _ => d

/-- Python `x.get(k, [])` followed by iteration: the list items, `[]`
for a non-list value. -/
def jGetList (j : Json) (k : String) : List Json :=
  match jGet j k (.arr []) with
  | .arr l => l
  | _ => []

/-- `_generate_executive_summary_text(...)` from `src/main.py`: the
status banner plus optional root-cause / recommendation bullet blocks
(three entries each at most, pulled out of the AI insight dict with
`.get` defaults). -/
def generate_executive_summary_text (startDate endDate : String)
    (production : ProductionData) (scrapRate : ℚ) (totalScraps : Nat)
    (aiInsights : Json) : String :=
  let status :=
    if scrapRate < 1 then "EXCELLENT"
    else if scrapRate < 3 then "GOOD"
    else "REQUIRES ATTENTION"
  let base :=
    "\nAI Scrap Analysis Report for period " ++ startDate ++ " to " ++ endDate ++
    "\n\nPRODUCTION OVERVIEW:\n- Total Orders: " ++ fmtCommasInt (production.nrOrders.getD 0) ++
    "\n- Total Boards: " ++ fmtCommasInt (production.nrBoards.getD 0) ++
    "\n- Total Defects: " ++ fmtCommasNat totalScraps ++
    "\n- Scrap Rate: " ++ fmtRatFixed 2 scrapRate ++ "%" ++
    "\n\nSTATUS: " ++ status ++ "\n\nKEY FINDINGS:\n"
  let rootCauses := jGetList aiInsights "root_causes"
  let withCauses :=
    if rootCauses.isEmpty then base
    else
      base ++ "\nPRIMARY ROOT CAUSES IDENTIFIED:\n" ++
        String.join ((rootCauses.take 3).map fun cause =>
          "- " ++ pyStr (jGet cause "cause" (.str "")) ++ "\n")
  let recs := jGetList aiInsights "recommendations"
  if recs.isEmpty then withCauses
  else
    withCauses ++ "\nTOP RECOMMENDATIONS:\n" ++
      String.join ((recs.take 3).map fun rec =>
        "- " ++ pyStr (jGet rec "title" (.str "")) ++ " (Priority: " ++
          pyStr (jGet rec "priority" (.str "Medium")) ++ ")\n")

/-- One metric row of `_prepare_metrics_data` (`src/main.py`). -/
structure Metric where
  name : String
  value : String
  target : String
  achieved : Bool

/-- `_prepare_metrics_data(production_data, analysis, ai_insights)` from
`src/main.py`. -/
def prepare_metrics_data (production : ProductionData) (analysis : ScrapStatistics)
    (aiInsights : Json) : List Metric :=
  let scrapRate := analysis.scrap_rate
  let totalScraps := analysis.total_scraps
  let base : List Metric :=
    [{ name := "Scrap Rate", value := fmtRatFixed 2 scrapRate ++ "%",
       target := "< 2.0%", achieved := decide (scrapRate < 2) },
     { name := "Total Defects", value := fmtCommasNat totalScraps,
       target := "Minimize", achieved := decide (totalScraps < 100) },
     { name := "Production Volume", value := fmtCommasInt (production.nrBoards.getD 0),
       target := "Maximize", achieved := true }]
  let isAI : Bool :=
    match jGet aiInsights "analysis_type" .null with
    | .str s => decide (s = "ai")
    | _ => false
  if isAI then
    base ++ [{ name := "AI Analysis Quality", value := "High", target := "High",
               achieved := true }]
  else base

/-- One enhanced-recommendation row of `_prepare_recommendations_data`
(`src/main.py`); the values are stored as pulled from the AI dict, not
stringified. -/
structure RecRow where
  priority : Json
  description : Json
  title : Json
  impact : Json

/-- `_prepare_recommendations_data(ai_insights)` from `src/main.py`. -/
def prepare_recommendations_data (aiInsights : Json) : List RecRow :=
  (jGetList aiInsights "recommendations").map fun rec =>
    { priority := jGet rec "priority" (.str "Medium")
      description := jGet rec "description" (.str "")
      title := jGet rec "title" (.str "")
      impact := jGet rec "impact" (.str "Process Improvement") }

/-- One raw-table row of `_prepare_raw_data` (`src/main.py`). -/
structure RawRow where
  defect_name : String
  count : Nat
  percentage : String
  top_area : String
  products_affected : Nat

/-- `_prepare_raw_data(scraps_data, top_defects)` from `src/main.py`:
the first ten top-defect entries with their share of the total count.
(The Python divides by `sum(d['Count'] for d in top_defects)`, raising
`ZeroDivisionError` when the entries sum to zero — impossible for
pipeline-produced entries, whose counts are at least 1; `ℚ` division
yields `0` there.) -/
def prepare_raw_data (topDefects : List TopDefect) : List RawRow :=
  let total : ℚ := ((topDefects.map TopDefect.count).sum : ℚ)
  (topDefects.take 10).map fun d =>
    { defect_name := d.defectName
      count := d.count
      percentage := fmtRatFixed 1 ((d.count : ℚ) / total * 100) ++ "%"
      top_area := d.topArea
      products_affected := d.productCount }

/-- The `scrap_data` sub-dict of the comprehensive report. -/
structure ScrapDataSummary where
  total_scraps : Nat
  scrap_rate : ℚ
  total_boards : Int

/-- The comprehensive report dict built by
`_prepare_comprehensive_report_data` in `src/main.py`. -/
structure ReportData where
  version : String
  analysis_type : String
  period : String
  executive_summary : String
  production_data : ProductionData
  scrap_data : ScrapDataSummary
  top_defects : List TopDefect
  ai_insights : Json
  analysis : ScrapStatistics
  metrics : List Metric
  recommendations : List RecRow
  raw_data : List RawRow
  generation_date : String

/-- `_prepare_comprehensive_report_data(start_date, end_date,
production_data, scraps_data, top_defects, ai_insights, analysis)` from
`src/main.py`.  Every field is a pure function of the arguments except
`generation_date`, which the source sets to
`datetime.now().strftime('%Y-%m-%d %H:%M:%S')` — modelled by the
explicit `now` argument.  (`scraps_data` is passed only through to
`_prepare_raw_data`, which ignores it.) -/
def prepare_comprehensive_report_data (startDate endDate : String)
    (production : ProductionData) (topDefects : List TopDefect) (aiInsights : Json)
    (analysis : ScrapStatistics) (now : String) : ReportData :=
  let scrapRate := analysis.scrap_rate
  let totalScraps := analysis.total_scraps
  let totalBoards := analysis.total_boards
  { version := "1.0"
    analysis_type := "AI Scrap Analysis"
    period := startDate ++ " to " ++ endDate
    executive_summary :=
      generate_executive_summary_text startDate endDate production scrapRate totalScraps
        aiInsights
    production_data := production
    scrap_data :=
      { total_scraps := totalScraps, scrap_rate := scrapRate, total_boards := totalBoards }
    top_defects := topDefects
    ai_insights := aiInsights
    analysis := analysis
    metrics := prepare_metrics_data production analysis aiInsights
    recommendations := prepare_recommendations_data aiInsights
    raw_data := prepare_raw_data topDefects
    generation_date := now }

/-! ## Shared concrete inputs for witnesses and counterexamples -/

/-- A `json.loads` stand-in for concrete scenarios: parses exactly the
two body strings the scenarios use and fails on everything else
(in particular on the malformed payloads they extract). -/
def parseStub : String → Option Json := fun t =>
  if t = "BODY" then some (.obj [("response", .str "not json")])
  else if t = "NETBODY" then some (.obj [("response", .str "\x7bbad\x7d")])
  else none

/-- Ollama configuration whose availability probe failed. -/
def stOff : OllamaState := { base_url := "http://localhost:11434", model_name := "llama3.2", available := false }

/-- A wave-soldering analysis dict whose dominant defect is BRIDGING. -/
def analysisB : AnalysisResults :=
  { total_defects := 28
    defect_distribution := [("BRIDGING", 18), ("COLD_JOINT", 10)]
    machine_distribution := [("Wave 1", 25)]
    overall_trend := none
    critical_issues := [] }

/-- A wave-soldering analysis dict whose dominant defect matches no
keyword of the fallback table. -/
def analysisU : AnalysisResults :=
  { total_defects := 10
    defect_distribution := [("TOMBSTONING", 10)]
    machine_distribution := []
    overall_trend := none
    critical_issues := [] }

/-- The provenance tag of a recommendations dict: the `source` value of
its `metadata` entry (`Json.null` when either key is absent). -/
def metaSource (d : List (String × Json)) : Json :=
  jGet ((d.lookup "metadata").getD .null) "source" .null

/-! ## Claim theorems -/

/-- C1: for every record set and production context, the computed rate
equals `count / volume * 100` when the context's volume is positive and
`0` whenever the volume is at most `0`; the guard covers both the scrap
statistics of `src/main.py` and the fail statistics of
`src/fail_analyzer.py`, and the embedded functions are total, so the
division can never raise. -/
theorem C1_rate_guarded (production : ProductionData) (scraps : List ScrapRec)
    (failData : List FailRec) (v : Int) (hv : production.nrBoards = some v) :
    (0 < v → (calculate_statistics production scraps).scrap_rate
        = (scraps.length : ℚ) / (v : ℚ) * 100) ∧
    (v ≤ 0 → (calculate_statistics production scraps).scrap_rate = 0) ∧
    (0 < v → (calculate_fail_statistics failData production).fail_rate
        = (failData.length : ℚ) / (v : ℚ) * 100) ∧
    (v ≤ 0 → (calculate_fail_statistics failData production).fail_rate = 0) := by
  refine ⟨fun h => ?_, fun h => ?_, fun h => ?_, fun h => ?_⟩ <;>
    simp only [calculate_statistics, calculate_fail_statistics, hv, Option.getD_some] <;>
    first
      | rw [if_pos h]
      | rw [if_neg (by omega)]

/-- Witness for C1 at a concrete context of volume 1000. -/
theorem C1_rate_guarded_witness :
    (0 : Int) < 1000 ∧
    (calculate_statistics ⟨some 1000, none⟩ []).scrap_rate
      = (([] : List ScrapRec).length : ℚ) / ((1000 : Int) : ℚ) * 100 :=
  ⟨by norm_num, (C1_rate_guarded ⟨some 1000, none⟩ [] [] 1000 rfl).1 (by norm_num)⟩

/-- C7: computing statistics over an empty record list yields the zeroed
statistics with empty rankings and rate 0, for any production context:
the breakdown statistics' early-return branch, the fail analyzer's
explicit empty statistics, and the fail statistics computed over `[]`
all agree on this, and all three embedded functions are total. -/
theorem C7_empty_input_statistics (production : ProductionData) :
    calculate_breakdown_statistics [] production =
      { total_stoppages := 0, total_downtime_hours := 0,
        total_boards_produced := production.nrBoards.getD 0, total_orders := none,
        avg_downtime_minutes := 0, unique_problems_count := none,
        problem_frequency := [], top_problems_by_freq := [],
        top_problems_by_time := [], top_lines_by_time := [] } ∧
    (calculate_fail_statistics [] production).fail_rate = 0 ∧
    (calculate_fail_statistics [] production).total_fails = 0 ∧
    (calculate_fail_statistics [] production).top_defects = [] ∧
    (calculate_fail_statistics [] production).top_products = [] ∧
    (calculate_fail_statistics [] production).top_areas = [] ∧
    calculate_empty_statistics.total_fails = 0 ∧
    calculate_empty_statistics.fail_rate = 0 ∧
    calculate_empty_statistics.top_defects = [] ∧
    calculate_empty_statistics.top_products = [] := by
  refine ⟨rfl, ?_, rfl, ?_, ?_, ?_, rfl, rfl, rfl, rfl⟩ <;>
    simp [calculate_fail_statistics]

/-- C6 (amended): on a zero-record feed the scrap report generator
returns its no-data signal (`success=False` with the Italian message)
and skips generation, but the breakdown analyzer instead returns a full
`success=True` result with zeroed statistics and a canned no-data
insight, and the fail analyzer returns a `success=False` result with
the empty statistics — neither of the latter two skips. -/
theorem C6_empty_run_behaviour {α β : Type} (rest : β)
    (parse : String → Option Json) (net : NetOutcome)
    (production : ProductionData) (periodType : String) :
    generate_complete_report ([] : List α) rest
      = ReportOutcome.noData "Nessun dato disponibile per il periodo specificato" ∧
    analyze_breakdowns parse net [] production periodType =
      { statistics := calculate_breakdown_statistics [] production
        ai_insights :=
          .obj [("executive_summary", .str "No breakdown data available for this period.")]
        period_type := periodType
        raw_data := []
        success := true } ∧
    fail_analyze_fails parse net [] production periodType =
      { statistics := calculate_empty_statistics
        ai_insights := .obj [("analysis_type", .str "no_data")]
        period_type := periodType
        success := false } :=
  ⟨rfl, rfl, rfl⟩

/-- Counterexample to C6 as stated: with zero breakdown records the
pipeline does NOT skip — `analyze_breakdowns` returns a successful
(`success = true`) analysis result whose statistics fields are all
zeroed and whose rankings are empty, exactly the "ReportModel with
zeroed fields" the claim excludes. -/
theorem C6_counterexample :
    (analyze_breakdowns parseStub .exn [] ⟨some 500, some 10⟩ "weekly").success = true ∧
    (analyze_breakdowns parseStub .exn [] ⟨some 500, some 10⟩ "weekly").statistics.total_stoppages
      = 0 ∧
    (analyze_breakdowns parseStub .exn [] ⟨some 500, some 10⟩
        "weekly").statistics.top_problems_by_freq = [] ∧
    (analyze_breakdowns parseStub .exn [] ⟨some 500, some 10⟩ "weekly").ai_insights =
      .obj [("executive_summary", .str "No breakdown data available for this period.")] :=
  ⟨rfl, rfl, rfl, rfl⟩

/-- C10: when the construction-time availability probe marked the Ollama
endpoint unavailable, `_call_ollama` returns `None` without consulting
the network (the result is invariant under the network oracle), and the
recommendation generator deterministically produces the rule-based
fallback. -/
theorem C10_unavailable_skips_network (st : OllamaState) (h : st.available = false)
    (parse : String → Option Json) (net net' : OllamaNet)
    (analysis : AnalysisResults) (now : String) :
    call_ollama st parse net = none ∧
    call_ollama st parse net = call_ollama st parse net' ∧
    generate_enhanced_recommendations st parse net analysis now
      = fallback_recommendations analysis now := by
  obtain ⟨b, m, a⟩ := st
  subst h
  exact ⟨rfl, rfl, rfl⟩

/-- Witness for C10 at the concrete unavailable configuration. -/
theorem C10_unavailable_skips_network_witness :
    call_ollama stOff parseStub .exn = none ∧
    call_ollama stOff parseStub .exn = call_ollama stOff parseStub (.resp 200 "NETBODY") ∧
    generate_enhanced_recommendations stOff parseStub .exn analysisU "2025-01-08"
      = fallback_recommendations analysisU "2025-01-08" :=
  C10_unavailable_skips_network stOff rfl parseStub .exn (.resp 200 "NETBODY") analysisU
    "2025-01-08"

/-- C5 (amended): the report assembler is a pure function of its inputs
in every field except `generation_date`, which records the wall clock at
call time; two calls with identical report inputs agree field-for-field
on everything else, and agree completely whenever the clock reading is
also identical. -/
theorem C5_assembler_deterministic_except_timestamp (startDate endDate : String)
    (production : ProductionData) (topDefects : List TopDefect) (aiInsights : Json)
    (analysis : ScrapStatistics) (t1 t2 : String) :
    let r1 := prepare_comprehensive_report_data startDate endDate production topDefects
      aiInsights analysis t1
    let r2 := prepare_comprehensive_report_data startDate endDate production topDefects
      aiInsights analysis t2
    r1.version = r2.version ∧ r1.analysis_type = r2.analysis_type ∧
    r1.period = r2.period ∧ r1.executive_summary = r2.executive_summary ∧
    r1.production_data = r2.production_data ∧ r1.scrap_data = r2.scrap_data ∧
    r1.top_defects = r2.top_defects ∧ r1.ai_insights = r2.ai_insights ∧
    r1.analysis = r2.analysis ∧ r1.metrics = r2.metrics ∧
    r1.recommendations = r2.recommendations ∧ r1.raw_data = r2.raw_data ∧
    r1.generation_date = t1 ∧ r2.generation_date = t2 :=
  ⟨rfl, rfl, rfl, rfl, rfl, rfl, rfl, rfl, rfl, rfl, rfl, rfl, rfl, rfl⟩

/-- Counterexample to C5 as stated: assembling twice with identical
report inputs but at two different clock instants yields report dicts
that are NOT field-for-field equal — `generation_date` differs. -/
theorem C5_counterexample :
    prepare_comprehensive_report_data "2025-01-01" "2025-01-07" ⟨some 100, some 5⟩ []
        Json.null ⟨0, 0, 100, [], [], [], []⟩ "2025-01-08 10:00:00"
      ≠ prepare_comprehensive_report_data "2025-01-01" "2025-01-07" ⟨some 100, some 5⟩ []
        Json.null ⟨0, 0, 100, [], [], [], []⟩ "2025-01-08 10:00:01" := by
  intro h
  exact absurd (congrArg ReportData.generation_date h) (by decide)

/-- Ollama configuration whose availability probe succeeded. -/
def stOn : OllamaState :=
  { base_url := "http://localhost:11434", model_name := "llama3.2", available := true }

/-- C3 (amended): a response whose text fails to parse as JSON never
lets an exception propagate — `_call_ai` returns `None` (the same
untagged value it returns on a transport failure, so no reason code
distinguishes `MALFORMED_JSON` from `NETWORK`), `analyze_defects` then
substitutes the canned scrap insight, and
`generate_enhanced_recommendations` falls back to the rule-based
recommendations. -/
theorem C3_malformed_json_resolves_to_fallback
    (parse : String → Option Json) (bodyText s : String) (body : Json)
    (st : OllamaState) (net2 : OllamaNet) (response : String) (span2 : List Char)
    (analysis : AnalysisResults) (now : String)
    (h1 : parse bodyText = some body) (h2 : responseField body = some s)
    (h3 : parse s = none)
    (h4 : call_ollama st parse net2 = some response)
    (h5 : jsonSpan (stripFences (pyStrip response.toList)) = some span2)
    (h6 : parse (String.mk span2) = none) :
    call_ai parse (.ok bodyText) = none ∧
    analyze_defects parse (.ok bodyText) = scrapFallbackInsight ∧
    call_ai parse .exn = none ∧
    generate_enhanced_recommendations st parse net2 analysis now
      = fallback_recommendations analysis now := by
  refine ⟨?_, ?_, rfl, ?_⟩
  · simp [call_ai, h1, h2, h3]
  · simp [analyze_defects, call_ai, h1, h2, h3]
  · simp only [String.toList] at h5
    simp [generate_enhanced_recommendations, h4, h5, h6]

/-- Witness for C3 at concrete malformed payloads on both client paths. -/
theorem C3_malformed_json_resolves_to_fallback_witness :
    call_ai parseStub (.ok "BODY") = none ∧
    analyze_defects parseStub (.ok "BODY") = scrapFallbackInsight ∧
    call_ai parseStub .exn = none ∧
    generate_enhanced_recommendations stOn parseStub (.resp 200 "NETBODY") analysisU
        "2025-01-08" = fallback_recommendations analysisU "2025-01-08" :=
  C3_malformed_json_resolves_to_fallback parseStub "BODY" "not json"
    (.obj [("response", .str "not json")]) stOn (.resp 200 "NETBODY") "\x7bbad\x7d"
    "\x7bbad\x7d".toList analysisU "2025-01-08" rfl rfl rfl rfl rfl rfl

/-- Counterexample to C3 as stated: at concrete inputs, the failure
value produced on a malformed-JSON response is the very value produced
on a network failure (`None` from `_call_ai`, the canned insight from
`analyze_defects`), and the only tag in sight on the
`ai_integration` path reads `rule_based_fallback` — no
`MALFORMED_JSON` reason code from the claimed set exists anywhere in the
results. -/
theorem C3_counterexample :
    call_ai parseStub (.ok "BODY") = call_ai parseStub .exn ∧
    analyze_defects parseStub (.ok "BODY") = analyze_defects parseStub .exn ∧
    metaSource
        (generate_enhanced_recommendations stOn parseStub (.resp 200 "NETBODY") analysisU
          "2025-01-08")
      = .str "rule_based_fallback" :=
  ⟨rfl, rfl, rfl⟩

/-- C4 (amended): when the endpoint is unreachable (availability probe
failed) the produced recommendations are exactly the rule-based
fallback, whose `metadata.source` provenance tag equals
`"rule_based_fallback"` (not `"fallback"`); the fallback's root-cause
list is non-empty whenever the top defect label matches a keyword of the
fixed table; and the AI analyzer's canned scrap insight carries no
`source` field at all, so only the `ai_integration` fallback path is
tagged. -/
theorem C4_provenance_tags (st : OllamaState) (h : st.available = false)
    (parse : String → Option Json) (net : OllamaNet) (analysis : AnalysisResults)
    (now : String) :
    generate_enhanced_recommendations st parse net analysis now
      = fallback_recommendations analysis now ∧
    metaSource (fallback_recommendations analysis now) = .str "rule_based_fallback" ∧
    (kwAny (maxKeyByCount analysis.defect_distribution) = true →
      ∃ l, (fallback_recommendations analysis now).lookup "root_causes"
          = some (.arr l) ∧ l ≠ []) ∧
    jGet scrapFallbackInsight "source" .null = .null := by
  obtain ⟨b, m, a⟩ := st
  subst h
  refine ⟨rfl, rfl, fun hkw => ⟨_, rfl, fun hX => ?_⟩, rfl⟩
  simp only [kwAny, Bool.or_eq_true] at hkw
  simp only [List.append_eq_nil] at hX
  rcases hkw with (((h1 | h2) | h3) | h4) | h5
  · simp [h1] at hX
  · simp [h2] at hX
  · simp [h3] at hX
  · simp [h4] at hX
  · simp [h5] at hX

/-- Witness for C4 at the unreachable configuration with a
BRIDGING-dominated distribution. -/
theorem C4_provenance_tags_witness :
    kwAny (maxKeyByCount analysisB.defect_distribution) = true ∧
    (∃ l, (fallback_recommendations analysisB "2025-01-08").lookup "root_causes"
        = some (.arr l) ∧ l ≠ []) :=
  ⟨by decide,
   (C4_provenance_tags stOff rfl parseStub .exn analysisB "2025-01-08").2.2.1 (by decide)⟩

/-- Counterexample to C4 as stated: with the endpoint unreachable the
result's provenance tag is `"rule_based_fallback"`, not the claimed
`"fallback"`, and the AI analyzer's fallback insight has no `source`
field at all. -/
theorem C4_counterexample :
    generate_enhanced_recommendations stOff parseStub .exn analysisB "2025-01-08"
      = fallback_recommendations analysisB "2025-01-08" ∧
    metaSource (fallback_recommendations analysisB "2025-01-08")
      = .str "rule_based_fallback" ∧
    Json.str "rule_based_fallback" ≠ Json.str "fallback" ∧
    jGet scrapFallbackInsight "source" .null = .null := by
  refine ⟨rfl, rfl, by simp, rfl⟩

/-- C9: the fallback engine is a total, deterministic Lean function of
its explicit inputs (statistics and clock reading); its result always
carries all seven list fields — the preventive-measure and
technical-insight generic blocks always with three entries — plus the
metadata object; when the top label matches no keyword of the fixed
table, the root-cause and priority-action lists are empty (no generic
entry is fabricated); the training block is empty unless
`total_defects > 50`. -/
theorem C9_fallback_engine_total (analysis : AnalysisResults) (now : String) :
    (∃ pa rc pi pm tn ec ti md,
      fallback_recommendations analysis now =
        [("priority_actions", .arr pa), ("root_causes", .arr rc),
         ("process_improvements", .arr pi), ("preventive_measures", .arr pm),
         ("training_needs", .arr tn), ("equipment_checks", .arr ec),
         ("technical_insights", .arr ti), ("metadata", .obj md)] ∧
      pm.length = 3 ∧ ti.length = 3) ∧
    (kwAny (maxKeyByCount analysis.defect_distribution) = false →
      (fallback_recommendations analysis now).lookup "root_causes" = some (.arr []) ∧
      (fallback_recommendations analysis now).lookup "priority_actions"
        = some (.arr [])) ∧
    (analysis.total_defects ≤ 50 →
      (fallback_recommendations analysis now).lookup "training_needs"
        = some (.arr [])) := by
  refine ⟨⟨_, _, _, _, _, _, _, _, rfl, rfl, rfl⟩, fun hkw => ?_, fun hle => ?_⟩
  · simp only [kwAny, Bool.or_eq_false_iff] at hkw
    obtain ⟨⟨⟨⟨h1, h2⟩, h3⟩, h4⟩, h5⟩ := hkw
    constructor <;>
      · simp only [fallback_recommendations, h1, h2, h3, h4, h5, if_false,
          Bool.false_eq_true, List.nil_append, List.append_nil]
        rfl
  · have hn : ¬ 50 < analysis.total_defects := not_lt.mpr hle
    simp only [fallback_recommendations, hn, if_false]
    rfl

/-- Witness for C9 at a distribution whose top label matches no keyword. -/
theorem C9_fallback_engine_total_witness :
    kwAny (maxKeyByCount analysisU.defect_distribution) = false ∧
    analysisU.total_defects ≤ 50 ∧
    (fallback_recommendations analysisU "2025-01-08").lookup "root_causes"
      = some (.arr []) ∧
    (fallback_recommendations analysisU "2025-01-08").lookup "training_needs"
      = some (.arr []) :=
  ⟨by decide, by decide,
   ((C9_fallback_engine_total analysisU "2025-01-08").2.1 (by decide)).1,
   (C9_fallback_engine_total analysisU "2025-01-08").2.2 (by decide)⟩

/-! ## Ranking lemmas for C2 -/

theorem geCount_trans {α : Type} : ∀ a b c : α × Nat, geCount a b → geCount b c → geCount a c := by
  intro a b c hab hbc
  simp only [geCount, decide_eq_true_eq] at *
  omega

theorem geCount_total {α : Type} : ∀ a b : α × Nat, geCount a b || geCount b a := by
  intro a b
  simp only [geCount, Bool.or_eq_true, decide_eq_true_eq]
  omega

theorem sum_bump (k : String) (m : List (String × Nat)) :
    ((bump k m).map (·.2)).sum = (m.map (·.2)).sum + 1 := by
  induction m with
  | nil => simp [bump]
  | cons p rest ih =>
      obtain ⟨k', n⟩ := p
      by_cases h : k' = k <;> simp [bump, h, ih] <;> omega

theorem foldl_counts (scraps : List ScrapRec) :
    ∀ (c : List (String × Nat)) (d : List (String × DefectDetails)),
      (scraps.foldl topDefectsStep (c, d)).1
        = scraps.foldl (fun m r => bump r.defect m) c := by
  induction scraps with
  | nil => intro c d; rfl
  | cons r rest ih =>
      intro c d
      rw [List.foldl_cons, List.foldl_cons]
      exact ih _ _

theorem sum_counts_foldl (scraps : List ScrapRec) :
    ∀ (c : List (String × Nat)),
      ((scraps.foldl (fun m r => bump r.defect m) c).map (·.2)).sum
        = (c.map (·.2)).sum + scraps.length := by
  induction scraps with
  | nil => simp
  | cons r rest ih =>
      intro c
      rw [List.foldl_cons, ih, sum_bump]
      simp
      omega

theorem sum_defectCounts (scraps : List ScrapRec) :
    ((defectCounts scraps).map (·.2)).sum = scraps.length := by
  rw [defectCounts, foldl_counts, sum_counts_foldl]
  simp

/-- C2: the frequency ranking of `_calculate_top_defects` is sorted
non-increasing by count; the counts over all labels sum to the number of
records; and ties keep first-seen order — any two entries of the
first-seen counts table with equal counts stay in their table order in
the sorted table and hence in the final ranking (Python's `sorted` is
stable; stability transfers through `mergeSort`). -/
theorem C2_frequency_ranking (scraps : List ScrapRec) :
    ((calculate_top_defects scraps).map TopDefect.count).Pairwise (· ≥ ·) ∧
    ((calculate_top_defects scraps).map TopDefect.count).sum = scraps.length ∧
    (∀ x y : String × Nat, List.Sublist [x, y] (defectCounts scraps) → x.2 = y.2 →
      List.Sublist [x, y] ((defectCounts scraps).mergeSort geCount) ∧
      List.Sublist ([x, y].map (mkTopDefect (defectDetails scraps)))
        (calculate_top_defects scraps)) := by
  have hmap : (calculate_top_defects scraps).map TopDefect.count
      = ((defectCounts scraps).mergeSort geCount).map (·.2) := by
    rw [calculate_top_defects, List.map_map]
    rfl
  refine ⟨?_, ?_, ?_⟩
  · rw [hmap, List.pairwise_map]
    exact (List.sorted_mergeSort geCount_trans geCount_total (defectCounts scraps)).imp
      (by simp only [geCount, decide_eq_true_eq, ge_iff_le]; exact fun h => h)
  · rw [hmap]
    have hperm : List.Perm (((defectCounts scraps).mergeSort geCount).map (·.2))
        ((defectCounts scraps).map (·.2)) :=
      (List.mergeSort_perm (defectCounts scraps) geCount).map _
    rw [hperm.sum_eq, sum_defectCounts]
  · intro x y hsub heq
    have hs : List.Sublist [x, y] ((defectCounts scraps).mergeSort geCount) :=
      List.pair_sublist_mergeSort geCount_trans geCount_total
        (by simp [geCount, heq]) hsub
    exact ⟨hs, by simpa [calculate_top_defects] using hs.map (mkTopDefect (defectDetails scraps))⟩

/-- Witness for C2 on two records with tied counts. -/
theorem C2_frequency_ranking_witness :
    List.Sublist [(("A" : String), (1 : Nat)), ("B", 1)]
        (defectCounts [⟨"AOI", "P1", "op1", "A"⟩, ⟨"AOI", "P1", "op1", "B"⟩]) ∧
    ((("A" : String), (1 : Nat))).2 = (("B", 1) : String × Nat).2 ∧
    List.Sublist
        ([(("A" : String), (1 : Nat)), ("B", 1)].map
          (mkTopDefect (defectDetails [⟨"AOI", "P1", "op1", "A"⟩, ⟨"AOI", "P1", "op1", "B"⟩])))
        (calculate_top_defects [⟨"AOI", "P1", "op1", "A"⟩, ⟨"AOI", "P1", "op1", "B"⟩]) :=
  ⟨List.Sublist.refl _, rfl,
   ((C2_frequency_ranking [⟨"AOI", "P1", "op1", "A"⟩, ⟨"AOI", "P1", "op1", "B"⟩]).2.2
      ("A", 1) ("B", 1) (List.Sublist.refl _) rfl).2⟩

/-! ## Span-extraction lemmas for C8 -/

theorem findIdx?_split {α : Type} (p : α → Bool) :
    ∀ (l : List α) (i : Nat), l.findIdx? p = some i →
      ∃ pre c post, l = pre ++ c :: post ∧ pre.length = i ∧
        (∀ x ∈ pre, p x = false) ∧ p c = true := by
  intro l
  induction l with
  | nil => intro i h; simp at h
  | cons x xs ih =>
      intro i h
      rw [List.findIdx?_cons] at h
      by_cases hp : p x
      · rw [if_pos hp] at h
        obtain rfl : (0 : Nat) = i := Option.some.inj h
        exact ⟨[], x, xs, rfl, rfl, by simp, hp⟩
      · rw [if_neg hp, List.findIdx?_succ] at h
        obtain ⟨i', hi', rfl⟩ := Option.map_eq_some'.mp h
        obtain ⟨pre, c, post, hdec, hlen, hpre, hc⟩ := ih i' hi'
        refine ⟨x :: pre, c, post, by simp [hdec], by simp [hlen], ?_, hc⟩
        intro y hy
        rcases List.mem_cons.mp hy with rfl | hy'
        · exact Bool.not_eq_true _ ▸ (by simpa using hp)
        · exact hpre y hy'

theorem jsonSpan_decomposition (s span : List Char)
    (h : jsonSpan s = some span) :
    ∃ pre post, s = pre ++ span ++ post ∧ (∀ c ∈ pre, c ≠ lbrace) ∧
      (∀ c ∈ post, c ≠ rbrace) ∧ span.head? = some lbrace ∧
      span.getLast? = some rbrace := by
  unfold jsonSpan at h
  split at h
  case h_2 => exact absurd h (by simp)
  case h_1 i k hfi hfk =>
    split at h
    case isFalse => exact absurd h (by simp)
    case isTrue hlt =>
      obtain rfl : (s.drop i).take (s.length - 1 - k + 1 - i) = span := Option.some.inj h
      obtain ⟨pre1, c1, post1, hs1, hlen1, hpre1, hc1⟩ := findIdx?_split _ s i hfi
      obtain ⟨pre2, c2, post2, hs2, hlen2, hpre2, hc2⟩ := findIdx?_split _ s.reverse k hfk
      have hc1' : c1 = lbrace := by simpa using hc1
      have hc2' : c2 = rbrace := by simpa using hc2
      have hrevlen : s.length = k + 1 + post2.length := by
        have := congrArg List.length hs2
        simp [hlen2] at this
        omega
      have hs2' : s = (post2.reverse ++ [c2]) ++ pre2.reverse := by
        have hr := congrArg List.reverse hs2
        simp only [List.reverse_reverse, List.reverse_append, List.reverse_cons] at hr
        rw [hr, List.append_assoc]
      have hAlen : (post2.reverse ++ [c2]).length = s.length - 1 - k + 1 := by
        simp only [List.length_append, List.length_reverse, List.length_cons,
          List.length_nil]
        omega
      have hIle : i ≤ s.length - 1 - k + 1 := Nat.le_of_lt hlt
      have hslen : s.length = i + 1 + post1.length := by
        have := congrArg List.length hs1
        simp [hlen1] at this
        omega
      have hiLen : i ≤ (s.take (s.length - 1 - k + 1)).length := by
        simp only [List.length_take]
        omega
      have hdropsplit : s.drop i
          = (s.take (s.length - 1 - k + 1)).drop i ++ s.drop (s.length - 1 - k + 1) := by
        conv_lhs => rw [← List.take_append_drop (s.length - 1 - k + 1) s]
        rw [List.drop_append_of_le_length hiLen]
      refine ⟨s.take i, s.drop (s.length - 1 - k + 1), ?_, ?_, ?_, ?_, ?_⟩
      · rw [List.take_drop]
        have harith : i + (s.length - 1 - k + 1 - i) = s.length - 1 - k + 1 := by omega
        rw [harith, List.append_assoc, ← hdropsplit, List.take_append_drop]
      · intro c hc
        have hpre : s.take i = pre1 := by
          rw [hs1, List.take_left' hlen1]
        rw [hpre] at hc
        simpa using hpre1 c hc
      · intro c hc
        have hpost := @List.drop_left' Char (post2.reverse ++ [c2]) pre2.reverse _ hAlen
        rw [← hs2'] at hpost
        rw [hpost, List.mem_reverse] at hc
        simpa using hpre2 c hc
      · have hdropi : s.drop i = c1 :: post1 := by
          rw [hs1, List.drop_left' hlen1]
        have harith : s.length - 1 - k + 1 - i = (s.length - 1 - k - i) + 1 := by omega
        rw [hdropi, harith, List.take_succ_cons]
        simp [hc1']
      · have htake := @List.take_left' Char (post2.reverse ++ [c2]) pre2.reverse _ hAlen
        rw [← hs2'] at htake
        have hspan : (s.drop i).take (s.length - 1 - k + 1 - i)
            = ((post2.reverse ++ [c2]).drop i) := by
          rw [List.take_drop]
          have harith : i + (s.length - 1 - k + 1 - i) = s.length - 1 - k + 1 := by omega
          rw [harith, htake]
        have hile2 : i ≤ post2.reverse.length := by
          simp only [List.length_reverse]
          omega
        rw [hspan, List.drop_append_of_le_length hile2, List.getLast?_concat, hc2']

theorem lookup_append_single (k k' : String) (v : Json) (d : List (String × Json)) :
    (d ++ [(k', v)]).lookup k
      = (d.lookup k).or (if k = k' then some v else none) := by
  induction d with
  | nil =>
      by_cases h : k = k'
      · subst h; simp [List.lookup]
      · have hb : (k == k') = false := beq_eq_false_iff_ne.mpr h
        simp [List.lookup, hb, h]
  | cons p rest ih =>
      obtain ⟨a, b⟩ := p
      by_cases h : k = a
      · subst h; simp [List.lookup]
      · have hb : (k == a) = false := beq_eq_false_iff_ne.mpr h
        simp [List.lookup, hb, ih]

theorem ensure_foldl_preserves (ks : List String) :
    ∀ (fields : List (String × Json)) (k : String) (v : Json),
      fields.lookup k = some v →
      (ks.foldl (fun d k' => if (d.lookup k').isSome then d else d ++ [(k', Json.arr [])])
        fields).lookup k = some v := by
  induction ks with
  | nil => intro fields k v h; simpa using h
  | cons k0 rest ih =>
      intro fields k v h
      rw [List.foldl_cons]
      apply ih
      by_cases hk0 : (fields.lookup k0).isSome
      · rwa [if_pos hk0]
      · rw [if_neg hk0, lookup_append_single, h, Option.or_some]

theorem ensure_foldl_defaults (ks : List String) :
    ∀ (fields : List (String × Json)) (k : String), k ∈ ks →
      fields.lookup k = none →
      (ks.foldl (fun d k' => if (d.lookup k').isSome then d else d ++ [(k', Json.arr [])])
        fields).lookup k = some (Json.arr []) := by
  induction ks with
  | nil => intro _ k hk _; simp at hk
  | cons k0 rest ih =>
      intro fields k hk hnone
      rw [List.foldl_cons]
      by_cases hkk : k = k0
      · subst hkk
        have hstep : ((if (fields.lookup k).isSome then fields
            else fields ++ [(k, Json.arr [])]).lookup k) = some (Json.arr []) := by
          rw [if_neg (by simp [hnone]), lookup_append_single, hnone, Option.none_or,
            if_pos rfl]
        exact ensure_foldl_preserves rest _ k _ hstep
      · have hk' : k ∈ rest := by
          rcases List.mem_cons.mp hk with h | h
          · exact absurd h hkk
          · exact h
        have hstep : ((if (fields.lookup k0).isSome then fields
            else fields ++ [(k0, Json.arr [])]).lookup k) = none := by
          by_cases h0 : (fields.lookup k0).isSome
          · rwa [if_pos h0]
          · rw [if_neg h0, lookup_append_single, hnone, Option.none_or, if_neg hkk]
        exact ih _ k hk' hstep

theorem ensure_foldl_untouched (ks : List String) :
    ∀ (fields : List (String × Json)) (k : String), k ∉ ks →
      (ks.foldl (fun d k' => if (d.lookup k').isSome then d else d ++ [(k', Json.arr [])])
        fields).lookup k = fields.lookup k := by
  induction ks with
  | nil => intro _ _ _; rfl
  | cons k0 rest ih =>
      intro fields k hk
      have hk0 : k ≠ k0 := fun h => hk (h ▸ List.mem_cons_self _ _)
      have hk' : k ∉ rest := fun h => hk (List.mem_cons_of_mem _ h)
      rw [List.foldl_cons, ih _ _ hk']
      by_cases h0 : (fields.lookup k0).isSome
      · rw [if_pos h0]
      · rw [if_neg h0, lookup_append_single, if_neg hk0, Option.or_none]

/-- C8: the response handler strips the surrounding wrapper
(whitespace, then Markdown fences), then selects the span from the
first `\x7b` to the last `\x7d` — formally, the stripped text splits as
`pre ++ span ++ post` with no opening brace before the span and no
closing brace after it, and the span starts with `\x7b` and ends with
`\x7d`; on a successful parse, missing required keys default to empty
lists, present keys keep their values, and unknown extra keys are left
untouched (they never cause a failure); the success path of
`generate_enhanced_recommendations` is exactly the defaulted object
with the AI metadata attached. -/
theorem C8_response_contract (response : String) (fields : List (String × Json)) :
    (∀ span, jsonSpan (stripFences (pyStrip response.toList)) = some span →
      ∃ pre post, stripFences (pyStrip response.toList) = pre ++ span ++ post ∧
        (∀ c ∈ pre, c ≠ lbrace) ∧ (∀ c ∈ post, c ≠ rbrace) ∧
        span.head? = some lbrace ∧ span.getLast? = some rbrace) ∧
    (∀ k, k ∈ requiredKeys → fields.lookup k = none →
      (ensureKeys fields).lookup k = some (Json.arr [])) ∧
    (∀ k v, fields.lookup k = some v → (ensureKeys fields).lookup k = some v) ∧
    (∀ k, k ∉ requiredKeys → (ensureKeys fields).lookup k = fields.lookup k) ∧
    (∀ (st : OllamaState) (parse : String → Option Json) (net : OllamaNet)
        (analysis : AnalysisResults) (now r : String) (span : List Char)
        (obj : List (String × Json)),
      call_ollama st parse net = some r →
      jsonSpan (stripFences (pyStrip r.toList)) = some span →
      parse (String.mk span) = some (Json.obj obj) →
      generate_enhanced_recommendations st parse net analysis now
        = dictSet "metadata" (aiMetadata st analysis now) (ensureKeys obj)) := by
  refine ⟨fun span h => jsonSpan_decomposition _ _ h,
    fun k hk hnone => ensure_foldl_defaults requiredKeys fields k hk hnone,
    fun k v hv => ensure_foldl_preserves requiredKeys fields k v hv,
    fun k hk => ensure_foldl_untouched requiredKeys fields k hk,
    fun st parse net analysis now r span obj h1 h2 h3 => ?_⟩
  simp only [String.toList] at h2
  simp [generate_enhanced_recommendations, ensureKeys, h1, h2, h3]

/-- A `json.loads` stand-in for the C8 witness scenario: an Ollama body
whose `response` is a fenced JSON object with one unknown extra key. -/
def parseOk : String → Option Json := fun t =>
  if t = "OKBODY" then
    some (.obj [("response", .str "```json\n\x7b\"a\": 1\x7d\n```")])
  else if t = "\x7b\"a\": 1\x7d" then
    some (.obj [("a", .num 1), ("priority_actions", .arr [.str "x"])])
  else none

/-- Witness for C8 on a fenced response with an unknown extra key and a
present required key. -/
theorem C8_response_contract_witness :
    jsonSpan (stripFences (pyStrip "```json\n\x7b\"a\": 1\x7d\n```".toList))
        = some "\x7b\"a\": 1\x7d".toList ∧
    (∃ pre post, stripFences (pyStrip "```json\n\x7b\"a\": 1\x7d\n```".toList)
        = pre ++ "\x7b\"a\": 1\x7d".toList ++ post ∧
        (∀ c ∈ pre, c ≠ lbrace) ∧ (∀ c ∈ post, c ≠ rbrace) ∧
        "\x7b\"a\": 1\x7d".toList.head? = some lbrace ∧
        "\x7b\"a\": 1\x7d".toList.getLast? = some rbrace) ∧
    (ensureKeys [("a", Json.num 1), ("priority_actions", Json.arr [Json.str "x"])]).lookup
        "root_causes" = some (Json.arr []) ∧
    (ensureKeys [("a", Json.num 1), ("priority_actions", Json.arr [Json.str "x"])]).lookup
        "priority_actions" = some (Json.arr [Json.str "x"]) ∧
    (ensureKeys [("a", Json.num 1), ("priority_actions", Json.arr [Json.str "x"])]).lookup
        "a" = some (Json.num 1) ∧
    generate_enhanced_recommendations stOn parseOk (.resp 200 "OKBODY") analysisU
        "2025-01-08"
      = dictSet "metadata" (aiMetadata stOn analysisU "2025-01-08")
          (ensureKeys [("a", Json.num 1), ("priority_actions", Json.arr [Json.str "x"])]) :=
  ⟨rfl,
   (C8_response_contract "```json\n\x7b\"a\": 1\x7d\n```"
      [("a", Json.num 1), ("priority_actions", Json.arr [Json.str "x"])]).1
     "\x7b\"a\": 1\x7d".toList rfl,
   (C8_response_contract "```json\n\x7b\"a\": 1\x7d\n```"
      [("a", Json.num 1), ("priority_actions", Json.arr [Json.str "x"])]).2.1
     "root_causes" (by decide) rfl,
   (C8_response_contract "```json\n\x7b\"a\": 1\x7d\n```"
      [("a", Json.num 1), ("priority_actions", Json.arr [Json.str "x"])]).2.2.1
     "priority_actions" (Json.arr [Json.str "x"]) rfl,
   Eq.trans
     ((C8_response_contract "```json\n\x7b\"a\": 1\x7d\n```"
        [("a", Json.num 1), ("priority_actions", Json.arr [Json.str "x"])]).2.2.2.1
       "a" (by decide)) rfl,
   (C8_response_contract "```json\n\x7b\"a\": 1\x7d\n```"
      [("a", Json.num 1), ("priority_actions", Json.arr [Json.str "x"])]).2.2.2.2
     stOn parseOk (.resp 200 "OKBODY") analysisU "2025-01-08"
     "```json\n\x7b\"a\": 1\x7d\n```" "\x7b\"a\": 1\x7d".toList
     [("a", Json.num 1), ("priority_actions", Json.arr [Json.str "x"])] rfl rfl rfl⟩

end ScrapReport
